import Mathlib

/-!
Verification development for the sandbox session manager of the
github-search-agent repository (`src/tools/sandbox.ts`).

The TypeScript source is shallowly embedded: the process-wide mutable maps
(`sandboxByChatId`, `commandOutputsByChatId`) become an explicit `AppState`
threaded through the functions; the external Vercel sandbox provider
(`Sandbox.create`, `sandbox.runCommand`) becomes a `World` carrying scripted
outcomes that the embedded functions consume in order, together with logs of
every provider call made (so that "how many underlying invocations occurred"
is observable).  JavaScript string truthiness, `Array.prototype.slice` with a
negative argument, `String.prototype.split`, `String.prototype.includes` and
the statefulness of a global (`g`-flagged) `RegExp.test` are modelled
explicitly.  `Date.now()` is modelled as the constant `World.now` and
`Math.random`-based id generation as a fresh counter `World.freshId`.
-/

deriving instance DecidableEq for Except

namespace SandboxAgent

/-! ## JavaScript string / array semantics helpers -/

/-- JS truthiness of a `string | undefined` value: `undefined` and `""` are
falsy, every other string is truthy. -/
def jsTruthy : Option String → Bool
  | none => false
  | some s => !(s == "")

/-- `split` of a character list on `'\n'`, JS `String.prototype.split("\n")`
semantics: the empty list yields one empty field. -/
def splitNlChars : List Char → List (List Char)
  | [] => [[]]
  | c :: cs =>
    if c = '\n' then [] :: splitNlChars cs
    else
      match splitNlChars cs with
      | [] => [[c]]
      | h :: t => (c :: h) :: t

/-- JS `s.split("\n")`. -/
def jsSplitNl (s : String) : List String :=
  (splitNlChars s.data).map String.mk

/-- JS `lines.join("\n")`. -/
def joinNl : List String → String
  | [] => ""
  | [x] => x
  | x :: y :: rest => x ++ "\n" ++ joinNl (y :: rest)

/-- Does `s` begin with `pat` (character lists)? -/
def beginsWith : List Char → List Char → Bool
  | [], _ => true
  | _ :: _, [] => false
  | p :: ps, c :: cs => p == c && beginsWith ps cs

/-- Does `pat` occur somewhere in `s` (character lists)? -/
def occursIn (pat : List Char) : List Char → Bool
  | [] => beginsWith pat []
  | c :: cs => beginsWith pat (c :: cs) || occursIn pat cs

/-- JS `s.includes(pat)`. -/
def jsIncludes (s pat : String) : Bool :=
  occursIn pat.data s.data

/-- JS `Array.prototype.slice(-k)` on a list of lines: for `k = 0` the
argument is `-0`, which JS treats as `0`, so the *whole* array is returned;
for `k > 0` the last `min k length` elements are returned. -/
def jsSliceNeg (l : List String) (k : Nat) : List String :=
  if k = 0 then l else l.drop (l.length - k)

/-- JS `String.prototype.trim` (whitespace at both ends removed). -/
def jsTrim (s : String) : String :=
  String.mk (((s.data.dropWhile Char.isWhitespace).reverse.dropWhile
    Char.isWhitespace).reverse)

/-- Value of a decimal digit list, JS `parseInt` on a digit string. -/
def digitsToNat : List Char → Nat → Nat
  | [], acc => acc
  | c :: cs, acc => digitsToNat cs (acc * 10 + (c.toNat - '0'.toNat))

/-! ## Data model (mirrors the interfaces of `sandbox.ts`) -/

/-- `SandboxInfo` from the source: one registered sandbox.  The environment
handle is identified by its `sandboxId`. -/
structure SandboxInfo where
  sandboxId : String
  repositoryUrl : String
  createdAt : Nat
deriving Repr, DecidableEq

/-- `CommandOutput` from the source: one stored command record. -/
structure CommandOutput where
  commandId : String
  command : String
  stdout : String
  stderr : String
  exitCode : Int
  timestamp : Nat
deriving Repr, DecidableEq

/-- A thrown JS `Error`, identified by its message. -/
structure JsError where
  message : String
deriving Repr, DecidableEq

/-- The process-wide credential configuration (`process.env.VERCEL_TOKEN`,
`VERCEL_TEAM_ID`, `VERCEL_PROJECT_ID`). -/
structure EnvConfig where
  token : Option String
  teamId : Option String
  projectId : Option String
deriving Repr, DecidableEq

/-- The `sandboxConfig` object passed to `Sandbox.create`. -/
structure SandboxConfig where
  url : String
  vcpus : Nat
  timeout : Nat
  runtime : String
  teamId : Option String
  projectId : Option String
  token : Option String
deriving Repr, DecidableEq

/-- One `sandbox.runCommand` call as issued.  `asSudo` is the source's
`sudo` field (renamed: `sudo` is a reserved token here). -/
structure RunCall where
  cmd : String
  args : List String
  asSudo : Bool
deriving Repr, DecidableEq

/-- Outcome of a `Sandbox.create` call: a fresh sandbox id, or a rejection
with an error message (including the 10-minute-deadline race losing). -/
inductive CreateOutcome where
  | ok (sandboxId : String)
  | err (message : String)
deriving Repr, DecidableEq

/-- Outcome of a `sandbox.runCommand` call: captured stdout/stderr/exit code,
or a rejection (transport/environment failure) with an error message. -/
inductive CommandOutcome where
  | ok (stdout stderr : String) (exitCode : Int)
  | err (message : String)
deriving Repr, DecidableEq

/-- The external world: scripted outcomes for the provider calls still to
come, plus logs of the calls already issued.  `now` models `Date.now()` and
`freshId` the random part of generated command identifiers. -/
structure World where
  env : EnvConfig
  now : Nat
  freshId : Nat
  createResults : List CreateOutcome
  runResults : List CommandOutcome
  createLog : List SandboxConfig
  runLog : List RunCall
  resolveLog : List (String × Option String)
deriving Repr, DecidableEq

/-- The process-wide mutable maps of `sandbox.ts`, as association lists:
`sandboxByChatId` and `commandOutputsByChatId`. -/
structure AppState where
  registry : List (String × SandboxInfo)
  outputs : List (String × List CommandOutput)
deriving Repr, DecidableEq

/-! ## Map operations (JS `Map.get` / `Map.set` / `Map.delete`) -/

/-- `sandboxByChatId.get(chatId)`. -/
def lookupReg : List (String × SandboxInfo) → String → Option SandboxInfo
  | [], _ => none
  | (k, v) :: rest, key => if k = key then some v else lookupReg rest key

/-- `sandboxByChatId.delete(chatId)`. -/
def eraseKey (r : List (String × SandboxInfo)) (key : String) :
    List (String × SandboxInfo) :=
  r.filter (fun p => !(p.1 == key))

/-- `sandboxByChatId.set(chatId, info)`. -/
def setKey (r : List (String × SandboxInfo)) (key : String) (v : SandboxInfo) :
    List (String × SandboxInfo) :=
  (key, v) :: eraseKey r key

/-- Number of registry entries stored under `key`. -/
def countKey : List (String × SandboxInfo) → String → Nat
  | [], _ => 0
  | (k, _) :: rest, key => (if k = key then 1 else 0) + countKey rest key

/-- `commandOutputsByChatId.get(chatId) ?? []`. -/
def getOutputs : List (String × List CommandOutput) → String → List CommandOutput
  | [], _ => []
  | (k, v) :: rest, key => if k = key then v else getOutputs rest key

/-- Replace the record list stored under `key`. -/
def setOutputs (store : List (String × List CommandOutput)) (key : String)
    (v : List CommandOutput) : List (String × List CommandOutput) :=
  (key, v) :: store.filter (fun p => !(p.1 == key))

/-- The `outputs.push(record)` step of `runSandboxCommand` (creating the
per-chat list if absent). -/
def appendOutput (store : List (String × List CommandOutput)) (key : String)
    (rec : CommandOutput) : List (String × List CommandOutput) :=
  setOutputs store key (getOutputs store key ++ [rec])

/-! ## External provider calls -/

/-- `Sandbox.create(sandboxConfig)` raced against the 10-minute deadline:
consumes the next scripted outcome and logs the configuration it was given.
An exhausted script behaves like the deadline elapsing. -/
def sandboxCreate (w : World) (cfg : SandboxConfig) : CreateOutcome × World :=
  (w.createResults.headD (.err
      "Sandbox creation timed out after 10 minutes. The repository may be too large or there may be a network issue."),
   { w with createResults := w.createResults.tail,
            createLog := w.createLog ++ [cfg] })

/-- `sandbox.runCommand(call)` followed by `result.stdout()` /
`result.stderr()`: consumes the next scripted outcome and logs the call. -/
def sandboxRunCommand (w : World) (c : RunCall) : CommandOutcome × World :=
  (w.runResults.headD (.err "no response from sandbox"),
   { w with runResults := w.runResults.tail, runLog := w.runLog ++ [c] })

/-! ## Error classification and dead-sandbox handling -/

/-- `isSandboxDeadError`: the death heuristic sniffs the error message for
`"400"`, `"not ok"` or `"Status code"`. -/
def isSandboxDeadError (e : JsError) : Bool :=
  jsIncludes e.message "400" || jsIncludes e.message "not ok" ||
    jsIncludes e.message "Status code"

/-- `handleDeadSandbox`: best-effort stop (errors swallowed, hence invisible
here), delete the registry entry, and recover the bound repository URL when
the caller did not supply a truthy one. -/
def handleDeadSandbox (st : AppState) (chatId : String)
    (repositoryUrl : Option String) : Option String × AppState :=
  match lookupReg st.registry chatId with
  | some existing =>
    let st1 : AppState := { st with registry := eraseKey st.registry chatId }
    if !jsTruthy repositoryUrl && !(existing.repositoryUrl == "") then
      (some existing.repositoryUrl, st1)
    else (repositoryUrl, st1)
  | none => (repositoryUrl, st)

/-- The retry-once scaffold shared verbatim by `runSandboxCommand`,
`listSandboxFiles`, `readSandboxFile` and `searchSandboxFiles` (each tool's
`execute` contains this same while-loop with `maxRetries = 1`, unrolled
here): one attempt; on a death-classified failure, evict the dead sandbox
(recovering its repository URL) and re-attempt exactly once; every surfaced
error is wrapped with the tool's message prefix. -/
def retryOnce {α : Type}
    (attempt : AppState → World → Option String →
      Except JsError α × AppState × World)
    (st : AppState) (w : World) (chatId : String)
    (repositoryUrl : Option String) (prefixMsg : String) :
    Except JsError α × AppState × World :=
  match attempt st w repositoryUrl with
  | (.ok r, st1, w1) => (.ok r, st1, w1)
  | (.error e, st1, w1) =>
    if isSandboxDeadError e then
      let (ret, st2) := handleDeadSandbox st1 chatId repositoryUrl
      let url2 := if jsTruthy ret then ret else repositoryUrl
      match attempt st2 w1 url2 with
      | (.ok r, st3, w2) => (.ok r, st3, w2)
      | (.error e2, st3, w2) => (.error ⟨prefixMsg ++ e2.message⟩, st3, w2)
    else (.error ⟨prefixMsg ++ e.message⟩, st1, w1)

/-- The message of the error thrown when no sandbox exists and no repository
URL was supplied (`MissingRepository` in the specification). -/
def missingRepoMsg (chatId : String) : String :=
  "No sandbox exists for chat " ++ chatId ++
    ". Please provide a repositoryUrl to create a sandbox."

/-- The message of the error thrown on a partial credential triple
(`InvalidCredentialConfiguration` in the specification). -/
def credErrMsg : String :=
  "VERCEL_TEAM_ID and VERCEL_PROJECT_ID must be set when using VERCEL_TOKEN"

/-! ## Provisioning (`getOrCreateSandbox`) -/

/-- The `Sandbox.create` consumption step: on success the new sandbox is
registered under `chatId`. -/
def doCreate (st : AppState) (w : World) (chatId : String)
    (cfg : SandboxConfig) : Except JsError SandboxInfo × AppState × World :=
  match sandboxCreate w cfg with
  | (.ok sid, w1) =>
    let info : SandboxInfo :=
      { sandboxId := sid, repositoryUrl := cfg.url, createdAt := w1.now }
    (.ok info, { st with registry := setKey st.registry chatId info }, w1)
  | (.err m, w1) => (.error ⟨m⟩, st, w1)

/-- The sandbox-creation tail of `getOrCreateSandbox` (lines 111–181 of the
source): build the configuration, attach credentials when
`process.env.VERCEL_TOKEN` is truthy (throwing when team or project id is
missing), then call `Sandbox.create`. -/
def provisionNew (st : AppState) (w : World) (chatId : String) (u : String) :
    Except JsError SandboxInfo × AppState × World :=
  let base : SandboxConfig :=
    { url := u, vcpus := 4, timeout := 1800000, runtime := "node22",
      teamId := none, projectId := none, token := none }
  if jsTruthy w.env.token then
    if !jsTruthy w.env.teamId || !jsTruthy w.env.projectId then
      (.error ⟨credErrMsg⟩, st, w)
    else
      doCreate st w chatId
        { base with teamId := w.env.teamId, projectId := w.env.projectId,
                    token := w.env.token }
  else
    doCreate st w chatId base

/-- `getOrCreateSandbox(chatId, repositoryUrl?)`.  Every call is recorded in
`World.resolveLog` so that the number of resolution attempts is observable.
Branches follow the source: an existing sandbox with no (or the same) truthy
URL is returned as-is; a different URL stops and evicts the old sandbox and
provisions fresh; no sandbox and no URL throws `MissingRepository`. -/
def getOrCreateSandbox (st : AppState) (w0 : World) (chatId : String)
    (repositoryUrl : Option String) :
    Except JsError SandboxInfo × AppState × World :=
  let w : World :=
    { w0 with resolveLog := w0.resolveLog ++ [(chatId, repositoryUrl)] }
  match lookupReg st.registry chatId with
  | some e =>
    match repositoryUrl with
    | some u =>
      if u == "" then (.ok e, st, w)
      else if !(e.repositoryUrl == u) then
        provisionNew { st with registry := eraseKey st.registry chatId }
          w chatId u
      else (.ok e, st, w)
    | none => (.ok e, st, w)
  | none =>
    match repositoryUrl with
    | some u =>
      if u == "" then (.error ⟨missingRepoMsg chatId⟩, st, w)
      else provisionNew st w chatId u
    | none => (.error ⟨missingRepoMsg chatId⟩, st, w)

/-! ## Output truncation (`truncateOutput`) -/

/-- The truncated-view record returned by `truncateOutput`. -/
structure TruncResult where
  truncated : String
  totalLines : Nat
  isTruncated : Bool
deriving Repr, DecidableEq

/-- `truncateOutput(output, maxLines = 20)`: empty (falsy) input reports zero
lines; otherwise split on newlines, and when the line count exceeds the
budget keep the first `floor(maxLines/2)` lines, an omission marker, and the
JS slice `lines.slice(-floor(maxLines/2))` (the whole array when the slice
argument is `-0`). -/
def truncateOutput (output : String) (maxLines : Nat) : TruncResult :=
  if output == "" then { truncated := "", totalLines := 0, isTruncated := false }
  else
    let lines := jsSplitNl output
    let totalLines := lines.length
    if totalLines > maxLines then
      let k := maxLines / 2
      let firstLines := lines.take k
      let lastLines := jsSliceNeg lines k
      { truncated :=
          joinNl firstLines ++ "\n... [" ++ toString (totalLines - maxLines) ++
            " lines omitted] ...\n" ++ joinNl lastLines,
        totalLines := totalLines, isTruncated := true }
    else { truncated := output, totalLines := totalLines, isTruncated := false }

/-! ## Command executor (`runSandboxCommandTool.execute`) -/

/-- JS `args.join(" ")`. -/
def joinSpace : List String → String
  | [] => ""
  | [x] => x
  | x :: y :: rest => x ++ " " ++ joinSpace (y :: rest)

/-- The argument object of `runSandboxCommandTool.execute` (zod defaults
already applied by the caller). -/
structure RunArgs where
  chatId : String
  repositoryUrl : Option String
  command : String
  args : List String
  asSudo : Bool
  workingDirectory : Option String
  maxOutputLines : Nat
deriving Repr, DecidableEq

/-- The object returned by a successful `runSandboxCommandTool.execute`. -/
structure RunSuccess where
  success : Bool
  exitCode : Int
  command : String
  commandId : String
  stdout : String
  stdoutLines : Nat
  stdoutTruncated : Bool
  stderr : String
  stderrLines : Nat
  stderrTruncated : Bool
  message : Option String
deriving Repr, DecidableEq

/-- The full command text recorded and returned (lines 294–315 of the
source): with a working directory the command is wrapped as
`cd <dir> && <command> <args>`; otherwise it is `<cmd> <cmdArgs>` where
sudo re-expresses the invocation. -/
def fullCommandText (a : RunArgs) : String :=
  match a.workingDirectory with
  | some wd => "cd " ++ wd ++ " && " ++ a.command ++ " " ++ joinSpace a.args
  | none =>
    (if a.asSudo then "sudo" else a.command) ++ " " ++
      joinSpace (if a.asSudo then a.command :: a.args else a.args)

/-- The `sandbox.runCommand` invocation issued (same source lines): with a
working directory a `sh -c` (or `sudo -c`) wrapper, otherwise the direct
command. -/
def runCallOf (a : RunArgs) : RunCall :=
  match a.workingDirectory with
  | some wd =>
    { cmd := if a.asSudo then "sudo" else "sh",
      args := ["-c", "cd " ++ wd ++ " && " ++ a.command ++ " " ++ joinSpace a.args],
      asSudo := a.asSudo }
  | none =>
    { cmd := if a.asSudo then "sudo" else a.command,
      args := if a.asSudo then a.command :: a.args else a.args,
      asSudo := a.asSudo }

/-- The `repositoryUrl` actually used by one loop iteration (lines 280–286):
the supplied one if truthy, else the URL bound to the existing sandbox. -/
def actualRepoUrl (st : AppState) (chatId : String)
    (repositoryUrl : Option String) : Option String :=
  if jsTruthy repositoryUrl then repositoryUrl
  else
    match lookupReg st.registry chatId with
    | some e => some e.repositoryUrl
    | none => repositoryUrl

/-- One iteration of the `runSandboxCommandTool.execute` try-block: resolve
the sandbox, issue the command, store the full output as a `CommandOutput`
record, and build the truncated response. -/
def attemptRun (st : AppState) (w : World) (a : RunArgs)
    (repositoryUrl : Option String) :
    Except JsError RunSuccess × AppState × World :=
  match getOrCreateSandbox st w a.chatId (actualRepoUrl st a.chatId repositoryUrl) with
  | (.error e, st1, w1) => (.error e, st1, w1)
  | (.ok _, st1, w1) =>
    match sandboxRunCommand w1 (runCallOf a) with
    | (.err m, w2) => (.error ⟨m⟩, st1, w2)
    | (.ok stdout stderr exitCode, w2) =>
      let commandId := toString w2.now ++ "-" ++ toString w2.freshId
      let w3 : World := { w2 with freshId := w2.freshId + 1 }
      let record : CommandOutput :=
        { commandId := commandId, command := fullCommandText a,
          stdout := stdout, stderr := stderr, exitCode := exitCode,
          timestamp := w3.now }
      let st2 : AppState :=
        { st1 with outputs := appendOutput st1.outputs a.chatId record }
      let so := truncateOutput stdout a.maxOutputLines
      let se := truncateOutput stderr a.maxOutputLines
      (.ok
        { success := exitCode == 0, exitCode := exitCode,
          command := fullCommandText a, commandId := commandId,
          stdout := so.truncated, stdoutLines := so.totalLines,
          stdoutTruncated := so.isTruncated,
          stderr := se.truncated, stderrLines := se.totalLines,
          stderrTruncated := se.isTruncated,
          message :=
            if so.isTruncated || se.isTruncated then
              some ("Output truncated. Use searchCommandOutput with commandId \"" ++
                commandId ++ "\" to search the full output.")
            else none },
        st2, w3)

/-- `runSandboxCommandTool.execute`: the while-loop with `maxRetries = 1`
unrolled.  A first failure classified by `isSandboxDeadError` evicts the
dead sandbox (recovering its repository URL) and retries exactly once; every
surfaced error is wrapped as `Failed to run command: <message>`. -/
def runSandboxCommand (st : AppState) (w : World) (a : RunArgs) :
    Except JsError RunSuccess × AppState × World :=
  retryOnce (fun s ω u => attemptRun s ω a u) st w a.chatId a.repositoryUrl
    "Failed to run command: "

/-! ## File tools (`listSandboxFilesTool`, `readSandboxFileTool`,
`searchSandboxFilesTool`).  Note these tools call `sandbox.runCommand`
directly; none of them touch `commandOutputsByChatId`. -/

/-- Result object of `listSandboxFilesTool.execute`. -/
structure ListFilesResult where
  success : Bool
  path : String
  recursive : Bool
  output : String
deriving Repr, DecidableEq

/-- One iteration of the `listSandboxFilesTool.execute` try-block. -/
def attemptList (st : AppState) (w : World) (chatId : String)
    (repositoryUrl : Option String) (path : String) (recursive : Bool) :
    Except JsError ListFilesResult × AppState × World :=
  match getOrCreateSandbox st w chatId (actualRepoUrl st chatId repositoryUrl) with
  | (.error e, st1, w1) => (.error e, st1, w1)
  | (.ok _, st1, w1) =>
    let call : RunCall :=
      if recursive then
        { cmd := "find", args := [path, "-type", "f", "-o", "-type", "d"],
          asSudo := false }
      else { cmd := "ls", args := ["-la", path], asSudo := false }
    match sandboxRunCommand w1 call with
    | (.err m, w2) => (.error ⟨m⟩, st1, w2)
    | (.ok stdout stderr exitCode, w2) =>
      if !(exitCode == 0) then
        (.error ⟨"Failed to list files: " ++ stderr⟩, st1, w2)
      else
        (.ok { success := true, path := path, recursive := recursive,
               output := stdout }, st1, w2)

/-- `listSandboxFilesTool.execute` with its retry-once loop unrolled. -/
def listSandboxFiles (st : AppState) (w : World) (chatId : String)
    (repositoryUrl : Option String) (path : String) (recursive : Bool) :
    Except JsError ListFilesResult × AppState × World :=
  retryOnce (fun s ω u => attemptList s ω chatId u path recursive) st w chatId
    repositoryUrl "Failed to list files: "

/-- Result object of `readSandboxFileTool.execute`. -/
structure ReadFileResult where
  success : Bool
  filePath : String
  content : String
deriving Repr, DecidableEq

/-- One iteration of the `readSandboxFileTool.execute` try-block. -/
def attemptRead (st : AppState) (w : World) (chatId : String)
    (repositoryUrl : Option String) (filePath : String) :
    Except JsError ReadFileResult × AppState × World :=
  match getOrCreateSandbox st w chatId (actualRepoUrl st chatId repositoryUrl) with
  | (.error e, st1, w1) => (.error e, st1, w1)
  | (.ok _, st1, w1) =>
    match sandboxRunCommand w1 { cmd := "cat", args := [filePath], asSudo := false } with
    | (.err m, w2) => (.error ⟨m⟩, st1, w2)
    | (.ok stdout stderr exitCode, w2) =>
      if !(exitCode == 0) then
        (.error ⟨"Failed to read file: " ++ stderr⟩, st1, w2)
      else
        (.ok { success := true, filePath := filePath, content := stdout },
         st1, w2)

/-- `readSandboxFileTool.execute` with its retry-once loop unrolled. -/
def readSandboxFile (st : AppState) (w : World) (chatId : String)
    (repositoryUrl : Option String) (filePath : String) :
    Except JsError ReadFileResult × AppState × World :=
  retryOnce (fun s ω u => attemptRead s ω chatId u filePath) st w chatId
    repositoryUrl "Failed to read file: "

/-- One match of `searchSandboxFilesTool` (file, matched line, optional
1-based line number). -/
structure FileMatch where
  file : String
  line : String
  lineNumber : Option Nat
deriving Repr, DecidableEq

/-- Result shape of `searchSandboxFilesTool.execute`.  `filePattern` and
`matchCount` are `Option` because the source omits them on some return
paths; the echoed `pattern`/`path` inputs are kept, the glob-branch
`message` as well. -/
structure SearchFilesResult where
  success : Bool
  pattern : String
  path : String
  filePattern : Option String
  matchList : List FileMatch
  matchCount : Option Nat
  message : Option String
deriving Repr, DecidableEq

/-- Parse `^(\d+):(.*)$` (the per-file grep-output shape): a maximal
nonempty digit run followed by a colon.  Returns the parsed number and the
rest of the line. -/
def parseNumColon (s : String) : Option (Nat × String) :=
  match s.data.takeWhile Char.isDigit, s.data.dropWhile Char.isDigit with
  | [], _ => none
  | ds, ':' :: tail => some (digitsToNat ds 0, String.mk tail)
  | _, _ => none

/-- Parse `^([^:]+):(\d+):(.*)$` (the recursive grep-output shape):
a nonempty colon-free run, a colon, then digits and a colon. -/
def parseFileNumColon (s : String) : Option (String × Nat × String) :=
  match s.data.takeWhile (fun c => !(c == ':')),
        s.data.dropWhile (fun c => !(c == ':')) with
  | [], _ => none
  | pre, ':' :: tail =>
    match parseNumColon (String.mk tail) with
    | some (n, content) => some (String.mk pre, n, content)
    | none => none
  | _, _ => none

/-- The non-empty-after-trim filter (`.filter(l => l.trim())`). -/
def trimmedNonEmpty (l : String) : Bool :=
  !(jsTrim l == "")

/-- Per-file grep lines 704–724 of the source: one output line becomes a
`FileMatch`; with line numbers requested, `^(\d+):(.*)$` is parsed, but a
falsy (empty) content group falls back to the whole line. -/
def fileMatchOfGrepLine (includeLineNumbers : Bool) (file l : String) :
    FileMatch :=
  if includeLineNumbers then
    match parseNumColon l with
    | some (n, content) =>
      if content == "" then { file := file, line := l, lineNumber := none }
      else { file := file, line := content, lineNumber := some n }
    | none => { file := file, line := l, lineNumber := none }
  else { file := file, line := l, lineNumber := none }

/-- Recursive-grep lines 756–775 of the source: `^([^:]+):(\d+):(.*)$` is
parsed, a falsy group falling back to `{file: path, line}`. -/
def fileMatchOfRecGrepLine (includeLineNumbers : Bool) (path l : String) :
    FileMatch :=
  if includeLineNumbers then
    match parseFileNumColon l with
    | some (f, n, content) =>
      if content == "" then { file := path, line := l, lineNumber := none }
      else { file := f, line := content, lineNumber := some n }
    | none => { file := path, line := l, lineNumber := none }
  else { file := path, line := l, lineNumber := none }

/-- The per-file grep loop of the glob branch (lines 691–725): one grep
invocation per file, skipping files whose grep exited non-zero or printed
nothing; a rejected invocation aborts the whole attempt. -/
def grepFiles (caseSensitive includeLineNumbers : Bool) (pattern : String) :
    List String → World → Except JsError (List FileMatch) × World
  | [], w => (.ok [], w)
  | f :: fs, w =>
    let call : RunCall :=
      { cmd := "grep",
        args := (if caseSensitive then [] else ["-i"]) ++
          (if includeLineNumbers then ["-n"] else []) ++ [pattern, f],
        asSudo := false }
    match sandboxRunCommand w call with
    | (.err m, w1) => (.error ⟨m⟩, w1)
    | (.ok stdout _ exitCode, w1) =>
      let here : List FileMatch :=
        if exitCode == 0 && !(stdout == "") then
          ((jsSplitNl stdout).filter trimmedNonEmpty).map
            (fileMatchOfGrepLine includeLineNumbers f)
        else []
      match grepFiles caseSensitive includeLineNumbers pattern fs w1 with
      | (.ok more, w2) => (.ok (here ++ more), w2)
      | (.error e, w2) => (.error e, w2)

/-- One iteration of the `searchSandboxFilesTool.execute` try-block: either
the glob branch (find, then per-file grep) or a single recursive grep where
exit code 1 (no matches) is a normal empty result. -/
def attemptSearchFiles (st : AppState) (w : World) (chatId : String)
    (repositoryUrl : Option String) (pattern path : String)
    (caseSensitive includeLineNumbers : Bool) (filePattern : Option String) :
    Except JsError SearchFilesResult × AppState × World :=
  match getOrCreateSandbox st w chatId (actualRepoUrl st chatId repositoryUrl) with
  | (.error e, st1, w1) => (.error e, st1, w1)
  | (.ok _, st1, w1) =>
    if jsTruthy filePattern && !(filePattern == some "*") then
      let fp := filePattern.getD ""
      match sandboxRunCommand w1
          { cmd := "find", args := [path, "-type", "f", "-name", fp],
            asSudo := false } with
      | (.err m, w2) => (.error ⟨m⟩, st1, w2)
      | (.ok stdout stderr exitCode, w2) =>
        if !(exitCode == 0) then
          (.error ⟨"Failed to find files: " ++ stderr⟩, st1, w2)
        else
          let files :=
            ((jsSplitNl stdout).filter trimmedNonEmpty).map jsTrim
          if files.isEmpty then
            (.ok { success := true, pattern := pattern, path := path,
                   filePattern := none, matchList := [], matchCount := none,
                   message := some ("No files matching pattern '" ++ fp ++
                     "' found") }, st1, w2)
          else
            match grepFiles caseSensitive includeLineNumbers pattern files w2 with
            | (.error e, w3) => (.error e, st1, w3)
            | (.ok allMatches, w3) =>
              (.ok { success := true, pattern := pattern, path := path,
                     filePattern := some fp, matchList := allMatches,
                     matchCount := some allMatches.length, message := none },
               st1, w3)
    else
      let call : RunCall :=
        { cmd := "grep",
          args := (if caseSensitive then [] else ["-i"]) ++
            (if includeLineNumbers then ["-n"] else []) ++
            ["-r", pattern, path],
          asSudo := false }
      match sandboxRunCommand w1 call with
      | (.err m, w2) => (.error ⟨m⟩, st1, w2)
      | (.ok stdout stderr exitCode, w2) =>
        if !(exitCode == 0) && !(exitCode == 1) then
          (.error ⟨"Failed to search files: " ++ stderr⟩, st1, w2)
        else
          let ms : List FileMatch :=
            if stdout == "" then []
            else
              ((jsSplitNl stdout).filter trimmedNonEmpty).map
                (fileMatchOfRecGrepLine includeLineNumbers path)
          (.ok { success := true, pattern := pattern, path := path,
                 filePattern := none, matchList := ms,
                 matchCount := some ms.length, message := none }, st1, w2)

/-- `searchSandboxFilesTool.execute` with its retry-once loop unrolled. -/
def searchSandboxFiles (st : AppState) (w : World) (chatId : String)
    (repositoryUrl : Option String) (pattern path : String)
    (caseSensitive includeLineNumbers : Bool) (filePattern : Option String) :
    Except JsError SearchFilesResult × AppState × World :=
  retryOnce
    (fun s ω u => attemptSearchFiles s ω chatId u pattern path
      caseSensitive includeLineNumbers filePattern)
    st w chatId repositoryUrl "Failed to search files: "

/-! ## Stored-output search (`searchCommandOutputTool.execute`)

The source compiles `new RegExp(pattern, caseSensitive ? "g" : "gi")` once
and calls `regex.test(line)` per line.  We model the ECMAScript semantics of
`test` on a *global* regex for metacharacter-free (literal, ASCII) patterns:
the match search starts at the regex's mutable `lastIndex`; a successful
test sets `lastIndex` to the end of the match, a failed test resets it to 0.
The `i` flag is modelled by lower-casing both sides. -/

/-- Case-aware character comparison (`i` flag). -/
def charMatch (caseSensitive : Bool) (a b : Char) : Bool :=
  if caseSensitive then a == b else a.toLower == b.toLower

/-- Does the literal pattern match at the head of `s`? -/
def litMatchesAt (caseSensitive : Bool) : List Char → List Char → Bool
  | [], _ => true
  | _ :: _, [] => false
  | p :: ps, c :: cs => charMatch caseSensitive p c && litMatchesAt caseSensitive ps cs

/-- Index (absolute, given the index `i` of the head of `s`) of the first
match of the literal pattern in `s`. -/
def litFindFrom (caseSensitive : Bool) (pat : List Char) :
    List Char → Nat → Option Nat
  | [], i => if litMatchesAt caseSensitive pat [] then some i else none
  | c :: rest, i =>
    if litMatchesAt caseSensitive pat (c :: rest) then some i
    else litFindFrom caseSensitive pat rest (i + 1)

/-- `regex.test(line)` for a global literal regex with state `lastIndex`:
returns the boolean result and the updated `lastIndex`. -/
def regexTest (caseSensitive : Bool) (pat line : String) (lastIndex : Nat) :
    Bool × Nat :=
  if lastIndex > line.data.length then (false, 0)
  else
    match litFindFrom caseSensitive pat.data (line.data.drop lastIndex) lastIndex with
    | some i => (true, i + pat.data.length)
    | none => (false, 0)

/-- One element of the `matches` array built by
`searchCommandOutputTool.execute`. -/
structure SearchMatch where
  commandId : String
  command : String
  stream : String
  line : String
  lineNumber : Nat
deriving Repr, DecidableEq

/-- The `lines.forEach` scan of one stream (lines 909–937 of the source):
every line on which the stateful `regex.test` fires is collected with its
1-based line number; the regex state threads through the whole scan. -/
def scanStream (caseSensitive : Bool) (pat cid cmd stream : String) :
    List String → Nat → Nat → List SearchMatch × Nat
  | [], _, lastIndex => ([], lastIndex)
  | l :: ls, idx, lastIndex =>
    let (hit, li1) := regexTest caseSensitive pat l lastIndex
    let (ms, liF) := scanStream caseSensitive pat cid cmd stream ls (idx + 1) li1
    ((if hit then
        [{ commandId := cid, command := cmd, stream := stream, line := l,
           lineNumber := idx + 1 }]
      else []) ++ ms, liF)

/-- The per-record body of the search loop: stdout then stderr (each only if
selected and truthy), the regex state carried from stdout into stderr, and
`regex.lastIndex = 0` after the record. -/
def scanRecord (caseSensitive : Bool) (pat : String)
    (searchStdout searchStderr : Bool) (o : CommandOutput) :
    List SearchMatch :=
  let (m1, li1) :=
    if searchStdout && !(o.stdout == "") then
      scanStream caseSensitive pat o.commandId o.command "stdout"
        (jsSplitNl o.stdout) 0 0
    else ([], 0)
  let (m2, _) :=
    if searchStderr && !(o.stderr == "") then
      scanStream caseSensitive pat o.commandId o.command "stderr"
        (jsSplitNl o.stderr) 0 li1
    else ([], li1)
  m1 ++ m2

/-- All matches collected over the selected records, in record order. -/
def collectMatches (caseSensitive : Bool) (pat : String)
    (searchStdout searchStderr : Bool) : List CommandOutput → List SearchMatch
  | [] => []
  | o :: os =>
    scanRecord caseSensitive pat searchStdout searchStderr o ++
      collectMatches caseSensitive pat searchStdout searchStderr os

/-- The records selected by an optional `commandId` filter (a falsy id
selects all records, as in `commandId ? ... : outputs`). -/
def selectedRecords (store : List (String × List CommandOutput))
    (chatId : String) (commandId : Option String) : List CommandOutput :=
  let outputs := getOutputs store chatId
  match commandId with
  | some cid =>
    if cid == "" then outputs
    else outputs.filter (fun o => o.commandId == cid)
  | none => outputs

/-- The object returned by `searchCommandOutputTool.execute`.  `totalMatches`
and `limited` are `Option` because the early-return paths omit them. -/
structure SearchOutputResult where
  success : Bool
  matchList : List SearchMatch
  matchCount : Nat
  totalMatches : Option Nat
  limited : Option Bool
  message : Option String
deriving Repr, DecidableEq

/-- `searchCommandOutputTool.execute`: empty store or empty selection return
an explanatory message; otherwise the scan result is capped at `maxResults`,
reporting the full count and a `limited` flag. -/
def searchCommandOutput (store : List (String × List CommandOutput))
    (chatId pattern : String) (commandId : Option String)
    (searchStdout searchStderr caseSensitive : Bool) (maxResults : Nat) :
    SearchOutputResult :=
  let outputs := getOutputs store chatId
  if outputs.isEmpty then
    { success := true, matchList := [], matchCount := 0, totalMatches := none,
      limited := none,
      message := some ("No command outputs found for chatId \"" ++ chatId ++
        "\". Run some commands first.") }
  else
    let commandsToSearch := selectedRecords store chatId commandId
    if commandsToSearch.isEmpty then
      { success := true, matchList := [], matchCount := 0,
        totalMatches := none, limited := none,
        message := some
          (match commandId with
           | some cid =>
             if cid == "" then "No commands found"
             else "No command found with commandId \"" ++ cid ++ "\""
           | none => "No commands found") }
    else
      let ms := collectMatches caseSensitive pattern searchStdout searchStderr
        commandsToSearch
      { success := true, matchList := ms.take maxResults,
        matchCount := ms.length, totalMatches := some ms.length,
        limited := some (decide (ms.length > maxResults)),
        message :=
          if ms.length > maxResults then
            some ("Found " ++ toString ms.length ++ " matches, showing first " ++
              toString maxResults)
          else none }

/-! ## Basic lemmas about the map operations -/

theorem lookupReg_eraseKey_self (r : List (String × SandboxInfo)) (k : String) :
    lookupReg (eraseKey r k) k = none := by
  induction r with
  | nil => rfl
  | cons p rest ih =>
    obtain ⟨k', v⟩ := p
    by_cases h : k' = k
    · simpa [eraseKey, h] using ih
    · simpa [eraseKey, lookupReg, h] using ih

theorem lookupReg_setKey_self (r : List (String × SandboxInfo)) (k : String)
    (v : SandboxInfo) : lookupReg (setKey r k v) k = some v := by
  simp [setKey, lookupReg]

theorem getOutputs_setOutputs (store : List (String × List CommandOutput))
    (key : String) (v : List CommandOutput) :
    getOutputs (setOutputs store key v) key = v := by
  simp [setOutputs, getOutputs]

theorem countKey_eraseKey_self (r : List (String × SandboxInfo)) (k : String) :
    countKey (eraseKey r k) k = 0 := by
  induction r with
  | nil => rfl
  | cons p rest ih =>
    obtain ⟨k', v⟩ := p
    by_cases h : k' = k
    · simpa [eraseKey, h] using ih
    · simpa [eraseKey, countKey, h] using ih

theorem countKey_eraseKey_le (r : List (String × SandboxInfo)) (k key : String) :
    countKey (eraseKey r k) key ≤ countKey r key := by
  induction r with
  | nil => simp [eraseKey, countKey]
  | cons p rest ih =>
    obtain ⟨k', v⟩ := p
    by_cases h : k' = k
    · calc countKey (eraseKey ((k', v) :: rest) k) key
          = countKey (eraseKey rest k) key := by simp [eraseKey, h]
        _ ≤ countKey rest key := ih
        _ ≤ countKey ((k', v) :: rest) key := by simp only [countKey]; omega
    · calc countKey (eraseKey ((k', v) :: rest) k) key
          = (if k' = key then 1 else 0) + countKey (eraseKey rest k) key := by
            simp [eraseKey, countKey, h]
        _ ≤ (if k' = key then 1 else 0) + countKey rest key :=
            Nat.add_le_add_left ih _
        _ = countKey ((k', v) :: rest) key := by simp [countKey]

/-- The at-most-one-session predicate: no conversation identifier has more
than one registry entry. -/
def sessOk (r : List (String × SandboxInfo)) : Prop :=
  ∀ key, countKey r key ≤ 1

theorem sessOk_eraseKey {r : List (String × SandboxInfo)} (h : sessOk r)
    (k : String) : sessOk (eraseKey r k) :=
  fun key => le_trans (countKey_eraseKey_le r k key) (h key)

theorem sessOk_setKey {r : List (String × SandboxInfo)} (h : sessOk r)
    (k : String) (v : SandboxInfo) : sessOk (setKey r k v) := by
  intro key
  by_cases hk : k = key
  · subst hk
    simp [setKey, countKey, countKey_eraseKey_self]
  · simpa [setKey, countKey, hk] using sessOk_eraseKey h k key

theorem sessOk_doCreate {st : AppState} (h : sessOk st.registry) (w : World)
    (chatId : String) (cfg : SandboxConfig) :
    sessOk ((doCreate st w chatId cfg).2.1).registry := by
  unfold doCreate sandboxCreate
  cases hcr : w.createResults with
  | nil => simpa using h
  | cons o rest =>
    cases o with
    | ok sid => simpa using sessOk_setKey h chatId _
    | err m => simpa using h

theorem sessOk_provisionNew {st : AppState} (h : sessOk st.registry) (w : World)
    (chatId u : String) :
    sessOk ((provisionNew st w chatId u).2.1).registry := by
  unfold provisionNew
  by_cases ht : jsTruthy w.env.token
  · by_cases hc : !jsTruthy w.env.teamId || !jsTruthy w.env.projectId
    · simpa [ht, hc] using h
    · simpa [ht, hc] using sessOk_doCreate h w chatId _
  · simpa [ht] using sessOk_doCreate h w chatId _

theorem sessOk_getOrCreateSandbox {st : AppState} (h : sessOk st.registry)
    (w : World) (chatId : String) (url : Option String) :
    sessOk ((getOrCreateSandbox st w chatId url).2.1).registry := by
  unfold getOrCreateSandbox
  cases hL : lookupReg st.registry chatId with
  | some e =>
    cases url with
    | some u =>
      by_cases hu : u == ""
      · simpa [hL, hu] using h
      · by_cases hd : e.repositoryUrl == u
        · simpa [hL, hu, hd] using h
        · have : sessOk (eraseKey st.registry chatId) := sessOk_eraseKey h chatId
          simpa [hL, hu, hd] using
            @sessOk_provisionNew { st with registry := eraseKey st.registry chatId }
              this _ chatId u
    | none => simpa [hL] using h
  | none =>
    cases url with
    | some u =>
      by_cases hu : u == ""
      · simpa [hL, hu] using h
      · simpa [hL, hu] using sessOk_provisionNew h _ chatId u
    | none => simpa [hL] using h

/-- A sequence of `getOrCreateSandbox` (resolve) calls, threading state and
world. -/
def resolveSeq : AppState → World → List (String × Option String) →
    AppState × World
  | st, w, [] => (st, w)
  | st, w, (c, u) :: rest =>
    resolveSeq (getOrCreateSandbox st w c u).2.1
      (getOrCreateSandbox st w c u).2.2 rest

theorem sessOk_resolveSeq (st : AppState) (w : World)
    (calls : List (String × Option String)) (h : sessOk st.registry) :
    sessOk ((resolveSeq st w calls).1).registry := by
  induction calls generalizing st w with
  | nil => simpa [resolveSeq] using h
  | cons cu rest ih =>
    obtain ⟨c, u⟩ := cu
    exact ih _ _ (sessOk_getOrCreateSandbox h w c u)

/-! ## Output-store invariance of the provisioning layer -/

theorem outputs_doCreate (st : AppState) (w : World) (chatId : String)
    (cfg : SandboxConfig) :
    ((doCreate st w chatId cfg).2.1).outputs = st.outputs := by
  unfold doCreate sandboxCreate
  cases hcr : w.createResults with
  | nil => rfl
  | cons o rest => cases o <;> rfl

theorem outputs_provisionNew (st : AppState) (w : World) (chatId u : String) :
    ((provisionNew st w chatId u).2.1).outputs = st.outputs := by
  unfold provisionNew
  by_cases ht : jsTruthy w.env.token
  · by_cases hc : !jsTruthy w.env.teamId || !jsTruthy w.env.projectId
    · simp [ht, hc]
    · simpa [ht, hc] using outputs_doCreate st _ chatId _
  · simpa [ht] using outputs_doCreate st _ chatId _

theorem outputs_getOrCreateSandbox (st : AppState) (w : World) (chatId : String)
    (url : Option String) :
    ((getOrCreateSandbox st w chatId url).2.1).outputs = st.outputs := by
  unfold getOrCreateSandbox
  cases hL : lookupReg st.registry chatId with
  | some e =>
    cases url with
    | some u =>
      by_cases hu : u == ""
      · simp [hL, hu]
      · by_cases hd : e.repositoryUrl == u
        · simp [hL, hu, hd]
        · simpa [hL, hu, hd] using
            outputs_provisionNew { st with registry := eraseKey st.registry chatId } _ chatId u
    | none => simp [hL]
  | none =>
    cases url with
    | some u =>
      by_cases hu : u == ""
      · simp [hL, hu]
      · simpa [hL, hu] using outputs_provisionNew st _ chatId u
    | none => simp [hL]

theorem outputs_handleDeadSandbox (st : AppState) (chatId : String)
    (url : Option String) :
    ((handleDeadSandbox st chatId url).2).outputs = st.outputs := by
  unfold handleDeadSandbox
  cases hL : lookupReg st.registry chatId with
  | some e =>
    by_cases hc : !jsTruthy url && !(e.repositoryUrl == "")
    · simp [hc]
    · simp [hc]
  | none => rfl

/-! ## Claim C10: empty input to `truncateOutput` -/

/-- C10: for the empty input string, `truncateOutput` returns an empty
excerpt with `totalLines = 0` and `isTruncated = false` for every line
budget, even though splitting the empty string on newlines yields one
(empty) line. -/
theorem truncateOutput_empty_string :
    ∀ maxLines : Nat,
      truncateOutput "" maxLines =
        { truncated := "", totalLines := 0, isTruncated := false } ∧
      (jsSplitNl "").length = 1 := by
  intro maxLines
  exact ⟨by simp [truncateOutput], by decide⟩

/-! ## Claim C2: head-and-tail truncation -/

/-- Claim C2 exactly as stated: for a string of `N` lines
(`N = (s.split("\n")).length`) and budget `B`, the truncated view reports
`totalLines = N`, `isTruncated = (N > B)`, and when `N > B` the excerpt is
the first `floor(B/2)` lines and the last `floor(B/2)` lines joined by a
marker stating `N - B` omitted lines. -/
@[reducible]
def headTailClaim (s : String) (b : Nat) : Prop :=
  let n := (jsSplitNl s).length
  let r := truncateOutput s b
  r.totalLines = n ∧ r.isTruncated = decide (n > b) ∧
  (n > b →
    r.truncated =
      joinNl ((jsSplitNl s).take (b / 2)) ++
        "\n... [" ++ toString (n - b) ++ " lines omitted] ...\n" ++
        joinNl ((jsSplitNl s).drop (n - b / 2)))

/-- C2 fails as stated: with budget `B = 1` the tail slice is
`lines.slice(-0)`, i.e. the whole array, so for the two-line input
`"a\nb"` the excerpt carries *all* lines after the marker instead of the
last zero lines; and the empty string is reported as zero lines although
splitting it yields one line. -/
theorem headTail_claim_counterexample :
    ¬ headTailClaim "a\nb" 1 ∧ ¬ headTailClaim "" 5 := by
  decide

/-- C2 amended: the head-and-tail property holds for every nonempty input
and every budget `B ≥ 2` (so that `floor(B/2) ≥ 1` and the JS tail slice is
a genuine tail). -/
theorem truncateOutput_head_tail (s : String) (b : Nat) (hs : s ≠ "")
    (hb : 2 ≤ b) : headTailClaim s b := by
  have hbeq : (s == "") = false := by simp [hs]
  have hk : b / 2 ≠ 0 := by omega
  unfold headTailClaim truncateOutput
  by_cases hn : (jsSplitNl s).length > b
  · simp [hbeq, hn, jsSliceNeg, hk]
  · simp [hbeq, hn]

/-- Witness for the amended C2 at a concrete input. -/
theorem truncateOutput_head_tail_witness :
    ("a\nb\nc\nd" ≠ "" ∧ 2 ≤ 2) ∧ headTailClaim "a\nb\nc\nd" 2 :=
  ⟨⟨by decide, by decide⟩, truncateOutput_head_tail "a\nb\nc\nd" 2 (by decide) (by decide)⟩

/-! ## Claim C5: line-by-line output search -/

/-- C5 (code bug): the search regex is compiled once with the global flag
and `regex.test` is stateful, so its `lastIndex` carries over from one line
to the next within a record.  On a record whose stdout is `"abc\nabc"`,
pattern `"abc"` (case-sensitive), the scan collects only line 1: after the
line-1 match `lastIndex` is 3, so the test on line 2 searches from index 3
and misses, even though line 2 matches the pattern from a fresh state.  The
claim that every matching line is collected is therefore false of the code. -/
theorem searchCommandOutput_skips_matching_line :
    (searchCommandOutput
        [("main", [{ commandId := "c1", command := "printf abc\\nabc",
                     stdout := "abc\nabc", stderr := "", exitCode := 0,
                     timestamp := 0 }])]
        "main" "abc" none true true true 50).matchList =
      [{ commandId := "c1", command := "printf abc\\nabc", stream := "stdout",
         line := "abc", lineNumber := 1 }] ∧
    jsSplitNl "abc\nabc" = ["abc", "abc"] ∧
    (regexTest true "abc" "abc" 0).1 = true := by
  decide

/-! ## Claim C6: search-result capping -/

/-- The number of lines of `text` matching the pattern from a *fresh* regex
state (`lastIndex = 0`) — the claim's notion of a "matching line". -/
def freshMatchCount (caseSensitive : Bool) (pat text : String) : Nat :=
  ((jsSplitNl text).filter
    (fun l => (regexTest caseSensitive pat l 0).1)).length

/-- Claim C6's "number M of matching lines", over the selected records and
their selected (truthy) streams, as in the claim's words. -/
def matchingLineCount (caseSensitive : Bool) (pat : String)
    (searchStdout searchStderr : Bool) : List CommandOutput → Nat
  | [] => 0
  | o :: os =>
    (if searchStdout && !(o.stdout == "") then
      freshMatchCount caseSensitive pat o.stdout
     else 0) +
    (if searchStderr && !(o.stderr == "") then
      freshMatchCount caseSensitive pat o.stderr
     else 0) +
    matchingLineCount caseSensitive pat searchStdout searchStderr os

/-- Claim C6 exactly as stated, with `M` the number of matching lines: when
`M > maxResults` the first `maxResults` matches are returned, `totalMatches`
equals `M` and `limited` is true; when `M ≤ maxResults` all `M` matches are
returned and `limited` is false. -/
@[reducible]
def cappingClaim (store : List (String × List CommandOutput))
    (chatId pattern : String) (commandId : Option String)
    (searchStdout searchStderr caseSensitive : Bool) (maxResults : Nat) :
    Prop :=
  (matchingLineCount caseSensitive pattern searchStdout searchStderr
      (selectedRecords store chatId commandId) > maxResults →
    ((searchCommandOutput store chatId pattern commandId searchStdout
        searchStderr caseSensitive maxResults).matchList).length = maxResults ∧
    (searchCommandOutput store chatId pattern commandId searchStdout
        searchStderr caseSensitive maxResults).totalMatches =
      some (matchingLineCount caseSensitive pattern searchStdout searchStderr
        (selectedRecords store chatId commandId)) ∧
    (searchCommandOutput store chatId pattern commandId searchStdout
        searchStderr caseSensitive maxResults).limited = some true) ∧
  (matchingLineCount caseSensitive pattern searchStdout searchStderr
      (selectedRecords store chatId commandId) ≤ maxResults →
    ((searchCommandOutput store chatId pattern commandId searchStdout
        searchStderr caseSensitive maxResults).matchList).length =
      matchingLineCount caseSensitive pattern searchStdout searchStderr
        (selectedRecords store chatId commandId) ∧
    (searchCommandOutput store chatId pattern commandId searchStdout
        searchStderr caseSensitive maxResults).limited = some false)

/-- Store for the C6 counterexample: one record whose stdout is two lines,
each matching pattern `"x"` from a fresh regex state. -/
def twoLineStore : List (String × List CommandOutput) :=
  [("main", [{ commandId := "c1", command := "echo", stdout := "x\nx",
               stderr := "", exitCode := 0, timestamp := 0 }])]

/-- C6 fails as stated: with stdout `"x\nx"`, pattern `"x"` and
`maxResults = 1`, both lines are matching lines (`M = 2 > 1`), but the
stateful global-regex scan (C5) collects only line 1, so the code reports
`totalMatches = 1` and `limited = false` instead of `totalMatches = M = 2`
and `limited = true`. -/
theorem capping_claim_counterexample :
    ¬ cappingClaim twoLineStore "main" "x" none true true true 1 := by
  decide

/-- C6 amended: the capping behaviour holds with `M` taken to be the number
of matches the scan actually collects (`collectMatches`; by the C5 bug this
can be fewer than the stateless matching lines): the reported `totalMatches`
is that count `M`; when `M` exceeds the cap, exactly the first `maxResults`
matches are returned with `limited = true`, otherwise all of them with
`limited = false`. -/
theorem searchCommandOutput_capping (store : List (String × List CommandOutput))
    (chatId pattern : String) (commandId : Option String)
    (searchStdout searchStderr caseSensitive : Bool) (maxResults : Nat)
    (h1 : getOutputs store chatId ≠ [])
    (h2 : selectedRecords store chatId commandId ≠ []) :
    (searchCommandOutput store chatId pattern commandId
        searchStdout searchStderr caseSensitive maxResults).totalMatches =
      some (collectMatches caseSensitive pattern searchStdout searchStderr
        (selectedRecords store chatId commandId)).length ∧
    (searchCommandOutput store chatId pattern commandId
        searchStdout searchStderr caseSensitive maxResults).limited =
      some (decide ((collectMatches caseSensitive pattern searchStdout
        searchStderr (selectedRecords store chatId commandId)).length >
          maxResults)) ∧
    ((collectMatches caseSensitive pattern searchStdout searchStderr
        (selectedRecords store chatId commandId)).length > maxResults →
      (searchCommandOutput store chatId pattern commandId
          searchStdout searchStderr caseSensitive maxResults).matchList =
        (collectMatches caseSensitive pattern searchStdout searchStderr
          (selectedRecords store chatId commandId)).take maxResults ∧
      ((searchCommandOutput store chatId pattern commandId
          searchStdout searchStderr caseSensitive maxResults).matchList).length =
        maxResults) ∧
    ((collectMatches caseSensitive pattern searchStdout searchStderr
        (selectedRecords store chatId commandId)).length ≤ maxResults →
      (searchCommandOutput store chatId pattern commandId
          searchStdout searchStderr caseSensitive maxResults).matchList =
        collectMatches caseSensitive pattern searchStdout searchStderr
          (selectedRecords store chatId commandId)) := by
  have h1' : (getOutputs store chatId).isEmpty = false := by
    simpa [List.isEmpty_iff] using h1
  have h2' : (selectedRecords store chatId commandId).isEmpty = false := by
    simpa [List.isEmpty_iff] using h2
  unfold searchCommandOutput
  simp only [h1', h2', Bool.false_eq_true, if_false]
  refine ⟨trivial, trivial, fun h => ⟨trivial, ?_⟩, fun h => ?_⟩
  · simp [List.length_take, Nat.min_eq_left (le_of_lt h)]
  · simp [List.take_of_length_le h]

/-- The store used by the C6 witness: one record whose stdout has two lines
matching pattern `"x"` under the stateful scan. -/
def cappingStore : List (String × List CommandOutput) :=
  [("main", [{ commandId := "c1", command := "echo", stdout := "x\ny x\nx",
               stderr := "", exitCode := 0, timestamp := 0 }])]

/-- Witness for C6 at a concrete input with more matches than the cap. -/
theorem searchCommandOutput_capping_witness :
    (getOutputs cappingStore "main" ≠ []) ∧
    (selectedRecords cappingStore "main" none ≠ []) ∧
    (searchCommandOutput cappingStore "main" "x" none true true true
        1).totalMatches =
      some (collectMatches true "x" true true
        (selectedRecords cappingStore "main" none)).length ∧
    ((collectMatches true "x" true true
        (selectedRecords cappingStore "main" none)).length > 1 →
      (searchCommandOutput cappingStore "main" "x" none true true true
          1).matchList =
        (collectMatches true "x" true true
          (selectedRecords cappingStore "main" none)).take 1 ∧
      ((searchCommandOutput cappingStore "main" "x" none true true true
          1).matchList).length = 1) :=
  have h := searchCommandOutput_capping cappingStore "main" "x" none true true
    true 1 (by decide) (by decide)
  ⟨by decide, by decide, h.1, h.2.2.1⟩

/-! ## Claim C8: credential-triple gating -/

/-- Claim C8 as stated: whenever the credential triple is only *partially*
present (any proper non-empty subset of token/team/project), provisioning
fails fast with the credential-configuration error, before any provider
call (state and world unchanged). -/
@[reducible]
def partialCredsRejected (st : AppState) (w : World) (chatId u : String) : Prop :=
  ((jsTruthy w.env.token || jsTruthy w.env.teamId || jsTruthy w.env.projectId) = true ∧
      ¬((jsTruthy w.env.token && jsTruthy w.env.teamId && jsTruthy w.env.projectId) = true)) →
    provisionNew st w chatId u = (.error ⟨credErrMsg⟩, st, w)

/-- C8 fails as stated: with only `VERCEL_TEAM_ID` set (token and project
absent) the source skips the credential check entirely and provisions
unauthenticated, instead of failing fast. -/
theorem partial_credentials_not_rejected :
    ¬ partialCredsRejected { registry := [], outputs := [] }
      { env := { token := none, teamId := some "team-1", projectId := none },
        now := 0, freshId := 0, createResults := [CreateOutcome.ok "sb-1"],
        runResults := [], createLog := [], runLog := [], resolveLog := [] }
      "main" "https://github.com/a/b.git" := by
  decide

/-- C8 amended: the gate is keyed on the token alone.  If the token is
present but team or project id is missing, provisioning fails fast with the
credential error before any provider call; if all three are present they
are attached to the configuration sent to the provider; if the token is
absent the provider is contacted without credentials, regardless of
team/project presence. -/
theorem credential_gating (st : AppState) (w : World) (chatId u : String) :
    (jsTruthy w.env.token = true →
      (jsTruthy w.env.teamId = false ∨ jsTruthy w.env.projectId = false) →
      provisionNew st w chatId u = (.error ⟨credErrMsg⟩, st, w)) ∧
    (jsTruthy w.env.token = true → jsTruthy w.env.teamId = true →
      jsTruthy w.env.projectId = true →
      ((provisionNew st w chatId u).2.2).createLog = w.createLog ++
        [{ url := u, vcpus := 4, timeout := 1800000, runtime := "node22",
           teamId := w.env.teamId, projectId := w.env.projectId,
           token := w.env.token }]) ∧
    (jsTruthy w.env.token = false →
      ((provisionNew st w chatId u).2.2).createLog = w.createLog ++
        [{ url := u, vcpus := 4, timeout := 1800000, runtime := "node22",
           teamId := none, projectId := none, token := none }]) := by
  refine ⟨fun ht hmiss => ?_, fun ht hteam hproj => ?_, fun ht => ?_⟩
  · rcases hmiss with h | h <;> simp [provisionNew, ht, h]
  · unfold provisionNew doCreate sandboxCreate
    cases hcr : w.createResults with
    | nil => simp [ht, hteam, hproj]
    | cons o rest => cases o <;> simp [ht, hteam, hproj]
  · unfold provisionNew doCreate sandboxCreate
    cases hcr : w.createResults with
    | nil => simp [ht]
    | cons o rest => cases o <;> simp [ht]

/-- Witness for the amended C8, exercising all three conjuncts at concrete
environments. -/
theorem credential_gating_witness :
    (jsTruthy (some "tok") = true ∧ (jsTruthy (none : Option String) = false ∨
        jsTruthy (some "proj") = false) ∧
      provisionNew { registry := [], outputs := [] }
        { env := { token := some "tok", teamId := none, projectId := some "proj" },
          now := 0, freshId := 0, createResults := [], runResults := [],
          createLog := [], runLog := [], resolveLog := [] } "main" "u" =
        (.error ⟨credErrMsg⟩, { registry := [], outputs := [] },
         { env := { token := some "tok", teamId := none, projectId := some "proj" },
           now := 0, freshId := 0, createResults := [], runResults := [],
           createLog := [], runLog := [], resolveLog := [] })) ∧
    ((provisionNew { registry := [], outputs := [] }
        { env := { token := some "tok", teamId := some "team", projectId := some "proj" },
          now := 0, freshId := 0, createResults := [CreateOutcome.ok "sb"],
          runResults := [], createLog := [], runLog := [], resolveLog := [] }
        "main" "u").2.2).createLog =
      [{ url := "u", vcpus := 4, timeout := 1800000, runtime := "node22",
         teamId := some "team", projectId := some "proj", token := some "tok" }] ∧
    ((provisionNew { registry := [], outputs := [] }
        { env := { token := none, teamId := some "team", projectId := none },
          now := 0, freshId := 0, createResults := [CreateOutcome.ok "sb"],
          runResults := [], createLog := [], runLog := [], resolveLog := [] }
        "main" "u").2.2).createLog =
      [{ url := "u", vcpus := 4, timeout := 1800000, runtime := "node22",
         teamId := none, projectId := none, token := none }] :=
  ⟨⟨by decide, Or.inl (by decide),
    (credential_gating _ _ "main" "u").1 (by decide) (Or.inl (by decide))⟩,
   (credential_gating _ _ "main" "u").2.1 (by decide) (by decide) (by decide),
   (credential_gating _ _ "main" "u").2.2 (by decide)⟩

/-! ## Concrete fixtures used by witnesses and counterexamples -/

/-- A repository URL used by concrete scenarios. -/
@[reducible]
def repoUrl : String := "https://github.com/a/b.git"

/-- A registered sandbox used by concrete scenarios. -/
@[reducible]
def sb1 : SandboxInfo :=
  { sandboxId := "sb-1", repositoryUrl := repoUrl, createdAt := 0 }

/-- A state holding exactly one session, for conversation `chat-1`. -/
@[reducible]
def oneSessionState : AppState :=
  { registry := [("chat-1", sb1)], outputs := [] }

/-- A world with no credentials and empty scripts/logs. -/
@[reducible]
def idleWorld : World :=
  { env := ⟨none, none, none⟩, now := 0, freshId := 0, createResults := [],
    runResults := [], createLog := [], runLog := [], resolveLog := [] }

/-- Resolving against an existing session with no (or the same truthy)
repository reference returns the existing handle and changes nothing but
the resolve log. -/
theorem getOrCreateSandbox_existing (st : AppState) (w : World)
    (chatId : String) (url : Option String) (e : SandboxInfo)
    (hL : lookupReg st.registry chatId = some e)
    (hurl : jsTruthy url = false ∨ url = some e.repositoryUrl) :
    getOrCreateSandbox st w chatId url =
      (.ok e, st,
       { w with resolveLog := w.resolveLog ++ [(chatId, url)] }) := by
  cases url with
  | none => simp [getOrCreateSandbox, hL]
  | some u =>
    rcases hurl with h | h
    · have hu : (u == "") = true := by simpa [jsTruthy] using h
      simp [getOrCreateSandbox, hL, hu]
    · injection h with h'
      subst h'
      by_cases hu : e.repositoryUrl == "" <;> simp [getOrCreateSandbox, hL, hu]

/-! ## Claim C3: at most one live session per conversation -/

/-- C3: (a) after any sequence of resolve calls, each conversation
identifier has at most one registered session; (b) resolving with an
existing session and no repository reference — or the same reference —
returns the existing handle with state and world untouched (in particular,
no provisioning call is made). -/
theorem session_registry_at_most_one :
    (∀ (st : AppState) (w : World) (calls : List (String × Option String)),
      sessOk st.registry → sessOk ((resolveSeq st w calls).1).registry) ∧
    (∀ (st : AppState) (w : World) (chatId : String) (url : Option String)
        (e : SandboxInfo), lookupReg st.registry chatId = some e →
      (jsTruthy url = false ∨ url = some e.repositoryUrl) →
      getOrCreateSandbox st w chatId url =
        (.ok e, st,
         { w with resolveLog := w.resolveLog ++ [(chatId, url)] })) := by
  exact ⟨fun st w calls h => sessOk_resolveSeq st w calls h,
    fun st w chatId url e hL hurl =>
      getOrCreateSandbox_existing st w chatId url e hL hurl⟩

/-- Witness for C3: a one-entry registry stays a one-entry-per-key registry
across a resolve sequence, and a resolve with no reference returns the
registered sandbox unchanged. -/
theorem session_registry_at_most_one_witness :
    sessOk ((resolveSeq oneSessionState idleWorld
      [("chat-1", some repoUrl), ("chat-1", none)]).1).registry ∧
    getOrCreateSandbox oneSessionState idleWorld "chat-1" none =
      (.ok sb1, oneSessionState,
       { idleWorld with resolveLog := [("chat-1", none)] }) :=
  ⟨session_registry_at_most_one.1 _ _ _
      (fun key => by
        by_cases h : "chat-1" = key <;> simp [oneSessionState, countKey, h]),
   session_registry_at_most_one.2 _ _ "chat-1" none _ (by decide)
      (Or.inl (by decide))⟩

/-! ## Claim C4: a non-zero exit code is data, not an error -/

/-- C4: when the underlying invocation completes, `runSandboxCommand`
returns normally with `success = (exitCode == 0)`, the exit code passed
through unchanged, truncated views of both streams, and a command record
holding the captured stdout, stderr and exit code appended to the
conversation's output store. -/
theorem runSandboxCommand_nonzero_exit_is_data (st : AppState) (w : World)
    (a : RunArgs) (old : SandboxInfo) (stdout stderr : String) (ec : Int)
    (rest : List CommandOutcome)
    (hrepo : a.repositoryUrl = none)
    (hL : lookupReg st.registry a.chatId = some old)
    (hrun : w.runResults = CommandOutcome.ok stdout stderr ec :: rest) :
    ∃ r st1 w1, runSandboxCommand st w a = (.ok r, st1, w1) ∧
      r.success = (ec == 0) ∧ r.exitCode = ec ∧
      r.stdout = (truncateOutput stdout a.maxOutputLines).truncated ∧
      r.stdoutLines = (truncateOutput stdout a.maxOutputLines).totalLines ∧
      r.stdoutTruncated = (truncateOutput stdout a.maxOutputLines).isTruncated ∧
      r.stderr = (truncateOutput stderr a.maxOutputLines).truncated ∧
      r.stderrLines = (truncateOutput stderr a.maxOutputLines).totalLines ∧
      r.stderrTruncated = (truncateOutput stderr a.maxOutputLines).isTruncated ∧
      getOutputs st1.outputs a.chatId =
        getOutputs st.outputs a.chatId ++
          [{ commandId := r.commandId, command := r.command, stdout := stdout,
             stderr := stderr, exitCode := ec, timestamp := w.now }] := by
  have hact : actualRepoUrl st a.chatId a.repositoryUrl = some old.repositoryUrl := by
    simp [actualRepoUrl, hrepo, jsTruthy, hL]
  have hg := getOrCreateSandbox_existing st w a.chatId (some old.repositoryUrl)
    old hL (Or.inr rfl)
  unfold runSandboxCommand retryOnce
  simp only []
  unfold attemptRun
  rw [hact, hg]
  simp only [sandboxRunCommand, hrun, List.headD]
  refine ⟨_, _, _, rfl, rfl, rfl, rfl, rfl, rfl, rfl, rfl, rfl, ?_⟩
  simp [appendOutput, getOutputs_setOutputs]

/-- The C4 witness scenario: `cat missing.txt` fails with exit code 1. -/
def catArgs : RunArgs :=
  { chatId := "chat-1", repositoryUrl := none, command := "cat",
    args := ["missing.txt"], asSudo := false, workingDirectory := none,
    maxOutputLines := 20 }

/-- The world scripting the failing `cat` invocation. -/
def catWorld : World :=
  { idleWorld with runResults :=
      [CommandOutcome.ok "" "cat: missing.txt: No such file or directory" 1] }

/-- Witness for C4: the failed `cat` returns normally with
`success = false`, exit code 1, a stderr view, and the record appended. -/
theorem runSandboxCommand_nonzero_exit_is_data_witness :
    catArgs.repositoryUrl = none ∧
    lookupReg oneSessionState.registry catArgs.chatId = some sb1 ∧
    catWorld.runResults =
      CommandOutcome.ok "" "cat: missing.txt: No such file or directory" 1 :: [] ∧
    (∃ r st1 w1,
      runSandboxCommand oneSessionState catWorld catArgs = (.ok r, st1, w1) ∧
      r.success = ((1 : Int) == 0) ∧ r.exitCode = 1 ∧
      r.stdout = (truncateOutput "" catArgs.maxOutputLines).truncated ∧
      r.stdoutLines = (truncateOutput "" catArgs.maxOutputLines).totalLines ∧
      r.stdoutTruncated = (truncateOutput "" catArgs.maxOutputLines).isTruncated ∧
      r.stderr = (truncateOutput "cat: missing.txt: No such file or directory"
        catArgs.maxOutputLines).truncated ∧
      r.stderrLines = (truncateOutput "cat: missing.txt: No such file or directory"
        catArgs.maxOutputLines).totalLines ∧
      r.stderrTruncated = (truncateOutput "cat: missing.txt: No such file or directory"
        catArgs.maxOutputLines).isTruncated ∧
      getOutputs st1.outputs catArgs.chatId =
        getOutputs oneSessionState.outputs catArgs.chatId ++
          [{ commandId := r.commandId, command := r.command, stdout := "",
             stderr := "cat: missing.txt: No such file or directory",
             exitCode := 1, timestamp := catWorld.now }]) :=
  ⟨rfl, by decide, rfl,
   runSandboxCommand_nonzero_exit_is_data oneSessionState catWorld catArgs sb1
     "" "cat: missing.txt: No such file or directory" 1 [] rfl (by decide) rfl⟩

/-! ## Claim C7: MissingRepository when no session and no reference -/

/-- Claim C7 as stated: with no registered session and no truthy repository
reference, `runSandboxCommand` surfaces the `MissingRepository` failure
(wrapped as `Failed to run command: ...`), with no retry (exactly one
resolve attempt recorded), no provisioning, and no mutation of state —
formally, the call returns the wrapped error with the state unchanged and
the world changed only by a single resolve-log entry. -/
@[reducible]
def missingRepoSurfacedWithoutRetry (st : AppState) (w : World) (a : RunArgs) :
    Prop :=
  lookupReg st.registry a.chatId = none → jsTruthy a.repositoryUrl = false →
    runSandboxCommand st w a =
      (.error ⟨"Failed to run command: " ++ missingRepoMsg a.chatId⟩, st,
       { w with resolveLog := w.resolveLog ++ [(a.chatId, a.repositoryUrl)] })

/-- C7 fails as stated: the `MissingRepository` message embeds the
conversation identifier, so for `chatId = "400"` the death heuristic
classifies it as environment death and the resolve is retried (two resolve
attempts are logged), contradicting "without any retry". -/
theorem missingRepository_retried_for_marker_chatId :
    ¬ missingRepoSurfacedWithoutRetry { registry := [], outputs := [] }
      idleWorld
      { chatId := "400", repositoryUrl := none, command := "ls", args := [],
        asSudo := false, workingDirectory := none, maxOutputLines := 20 } := by
  decide

/-- C7 amended: the behaviour claimed holds whenever the conversation
identifier does not make the `MissingRepository` message match a death
marker (`"400"`, `"not ok"`, `"Status code"`); in every case there is no
provisioning and no registry mutation. -/
theorem missingRepository_no_retry (st : AppState) (w : World) (a : RunArgs)
    (hdead : isSandboxDeadError ⟨missingRepoMsg a.chatId⟩ = false) :
    missingRepoSurfacedWithoutRetry st w a := by
  intro hL hurl
  have hact : actualRepoUrl st a.chatId a.repositoryUrl = a.repositoryUrl := by
    simp [actualRepoUrl, hurl, hL]
  unfold runSandboxCommand retryOnce
  simp only []
  unfold attemptRun
  rw [hact]
  cases hu : a.repositoryUrl with
  | none => simp [getOrCreateSandbox, hL, hdead]
  | some u =>
    have hue : (u == "") = true := by
      rw [hu] at hurl
      simpa [jsTruthy] using hurl
    simp [getOrCreateSandbox, hL, hue, hdead]

/-- Witness for the amended C7 at `chatId = "chat-1"`. -/
theorem missingRepository_no_retry_witness :
    isSandboxDeadError ⟨missingRepoMsg "chat-1"⟩ = false ∧
    runSandboxCommand { registry := [], outputs := [] } idleWorld
      { chatId := "chat-1", repositoryUrl := none, command := "ls", args := [],
        asSudo := false, workingDirectory := none, maxOutputLines := 20 } =
      (.error ⟨"Failed to run command: " ++ missingRepoMsg "chat-1"⟩,
       { registry := [], outputs := [] },
       { idleWorld with resolveLog := [("chat-1", none)] }) :=
  ⟨by decide,
   missingRepository_no_retry { registry := [], outputs := [] } idleWorld
     { chatId := "chat-1", repositoryUrl := none, command := "ls", args := [],
       asSudo := false, workingDirectory := none, maxOutputLines := 20 }
     (by decide) (by decide) (by decide)⟩

/-! ## Claim C9: do the file tools append command records? -/

theorem outputs_retryOnce {α : Type}
    (attempt : AppState → World → Option String →
      Except JsError α × AppState × World)
    (hA : ∀ s ω u, ((attempt s ω u).2.1).outputs = s.outputs)
    (st : AppState) (w : World) (chatId : String) (url : Option String)
    (prefixMsg : String) :
    ((retryOnce attempt st w chatId url prefixMsg).2.1).outputs = st.outputs := by
  unfold retryOnce
  split
  · rename_i r1 st1 w1 heq
    have h := hA st w url
    rw [heq] at h
    exact h
  · rename_i e st1 w1 heq
    have h1 : st1.outputs = st.outputs := by
      have h := hA st w url
      rw [heq] at h
      exact h
    split
    · split
      rename_i ret st2 heq2
      have h2 : st2.outputs = st.outputs := by
        have h := outputs_handleDeadSandbox st1 chatId url
        rw [heq2] at h
        exact h.trans h1
      have h3 : ∀ u2 : Option String,
          ((attempt st2 w1 u2).2.1).outputs = st.outputs :=
        fun u2 => (hA st2 w1 u2).trans h2
      by_cases hjt : jsTruthy ret
      · simp only [hjt, if_true]
        split <;>
          (rename_i x st3 w2 heq3
           have hx := h3 ret
           rw [heq3] at hx
           exact hx)
      · simp only [hjt, Bool.false_eq_true, if_false]
        split <;>
          (rename_i x st3 w2 heq3
           have hx := h3 url
           rw [heq3] at hx
           exact hx)
    · exact h1

theorem outputs_attemptList (st : AppState) (w : World) (c : String)
    (u : Option String) (p : String) (r : Bool) :
    ((attemptList st w c u p r).2.1).outputs = st.outputs := by
  unfold attemptList
  split
  · rename_i e st1 w1 heq
    have h := outputs_getOrCreateSandbox st w c (actualRepoUrl st c u)
    rw [heq] at h
    exact h
  · rename_i sb st1 w1 heq
    have h1 : st1.outputs = st.outputs := by
      have h := outputs_getOrCreateSandbox st w c (actualRepoUrl st c u)
      rw [heq] at h
      exact h
    cases hrr : w1.runResults with
    | nil => simp [sandboxRunCommand, hrr, h1]
    | cons o rest =>
      cases o with
      | err m => simp [sandboxRunCommand, hrr, h1]
      | ok s1 s2 ec =>
        by_cases he : ec == 0 <;> simp [sandboxRunCommand, hrr, he, h1]

theorem outputs_attemptRead (st : AppState) (w : World) (c : String)
    (u : Option String) (f : String) :
    ((attemptRead st w c u f).2.1).outputs = st.outputs := by
  unfold attemptRead
  split
  · rename_i e st1 w1 heq
    have h := outputs_getOrCreateSandbox st w c (actualRepoUrl st c u)
    rw [heq] at h
    exact h
  · rename_i sb st1 w1 heq
    have h1 : st1.outputs = st.outputs := by
      have h := outputs_getOrCreateSandbox st w c (actualRepoUrl st c u)
      rw [heq] at h
      exact h
    cases hrr : w1.runResults with
    | nil => simp [sandboxRunCommand, hrr, h1]
    | cons o rest =>
      cases o with
      | err m => simp [sandboxRunCommand, hrr, h1]
      | ok s1 s2 ec =>
        by_cases he : ec == 0 <;> simp [sandboxRunCommand, hrr, he, h1]

theorem outputs_attemptSearchFiles (st : AppState) (w : World) (c : String)
    (u : Option String) (pat p : String) (cs ln : Bool)
    (fp : Option String) :
    ((attemptSearchFiles st w c u pat p cs ln fp).2.1).outputs = st.outputs := by
  unfold attemptSearchFiles
  split
  · rename_i e st1 w1 heq
    have h := outputs_getOrCreateSandbox st w c (actualRepoUrl st c u)
    rw [heq] at h
    exact h
  · rename_i sb st1 w1 heq
    have h1 : st1.outputs = st.outputs := by
      have h := outputs_getOrCreateSandbox st w c (actualRepoUrl st c u)
      rw [heq] at h
      exact h
    by_cases hglob : jsTruthy fp && !(fp == some "*")
    · simp only [hglob, if_true]
      cases hrr : w1.runResults with
      | nil => simp [sandboxRunCommand, hrr, h1]
      | cons o rest =>
        cases o with
        | err m => simp [sandboxRunCommand, hrr, h1]
        | ok s1 s2 ec =>
          by_cases he : ec == 0
          · simp only [sandboxRunCommand, hrr, List.headD, he, Bool.not_true,
              Bool.false_eq_true, if_false]
            by_cases hf : (((jsSplitNl s1).filter trimmedNonEmpty).map jsTrim).isEmpty
            · simp [hf, h1]
            · simp only [hf, Bool.false_eq_true, if_false]
              split <;> rename_i gr w3 heq3 <;> simp [h1]
          · simp [sandboxRunCommand, hrr, he, h1]
    · simp only [hglob, Bool.false_eq_true, if_false]
      cases hrr : w1.runResults with
      | nil => simp [sandboxRunCommand, hrr, h1]
      | cons o rest =>
        cases o with
        | err m => simp [sandboxRunCommand, hrr, h1]
        | ok s1 s2 ec =>
          by_cases he : !(ec == 0) && !(ec == 1) <;>
            simp [sandboxRunCommand, hrr, he, h1]

theorem outputs_listSandboxFiles (st : AppState) (w : World) (c : String)
    (u : Option String) (p : String) (r : Bool) :
    ((listSandboxFiles st w c u p r).2.1).outputs = st.outputs :=
  outputs_retryOnce _ (fun s ω v => outputs_attemptList s ω c v p r) st w c u _

theorem outputs_readSandboxFile (st : AppState) (w : World) (c : String)
    (u : Option String) (f : String) :
    ((readSandboxFile st w c u f).2.1).outputs = st.outputs :=
  outputs_retryOnce _ (fun s ω v => outputs_attemptRead s ω c v f) st w c u _

theorem outputs_searchSandboxFiles (st : AppState) (w : World) (c : String)
    (u : Option String) (pat p : String) (cs ln : Bool)
    (fp : Option String) :
    ((searchSandboxFiles st w c u pat p cs ln fp).2.1).outputs = st.outputs :=
  outputs_retryOnce _
    (fun s ω v => outputs_attemptSearchFiles s ω c v pat p cs ln fp) st w c u _

/-- Claim C9 as stated, instantiated to `listSandboxFiles`: a successful
call appends one command record to the conversation's output store. -/
@[reducible]
def listFilesAppendsRecord (st : AppState) (w : World) (chatId : String)
    (url : Option String) (path : String) (recursive : Bool) : Prop :=
  ((listSandboxFiles st w chatId url path recursive).1).isOk = true →
    (getOutputs (((listSandboxFiles st w chatId url path recursive).2.1)).outputs
        chatId).length =
      (getOutputs st.outputs chatId).length + 1

/-- C9 fails as stated: a successful `listSandboxFiles` call leaves the
output store untouched — the file tools issue `sandbox.runCommand` directly
and never write to `commandOutputsByChatId`. -/
theorem listFiles_appends_no_record :
    ¬ listFilesAppendsRecord oneSessionState
      { idleWorld with runResults := [CommandOutcome.ok "file1\nfile2" "" 0] }
      "chat-1" none "." false := by
  decide

/-- C9 amended: none of `listSandboxFiles`, `readSandboxFile` and
`searchSandboxFiles` ever appends a command record — the conversation's
output store is unchanged by every call (successful or not); only
`runSandboxCommand` appends records. -/
theorem fileTools_do_not_append_records :
    (∀ (st : AppState) (w : World) (c : String) (u : Option String)
        (p : String) (r : Bool),
      ((listSandboxFiles st w c u p r).2.1).outputs = st.outputs) ∧
    (∀ (st : AppState) (w : World) (c : String) (u : Option String)
        (f : String),
      ((readSandboxFile st w c u f).2.1).outputs = st.outputs) ∧
    (∀ (st : AppState) (w : World) (c : String) (u : Option String)
        (pat p : String) (cs ln : Bool) (fp : Option String),
      ((searchSandboxFiles st w c u pat p cs ln fp).2.1).outputs = st.outputs) :=
  ⟨outputs_listSandboxFiles, outputs_readSandboxFile, outputs_searchSandboxFiles⟩

/-! ## Claim C1: retry-once semantics of the command executor -/

/-- C1: (a) if the first underlying invocation raises a death-classified
error and the second succeeds, the call succeeds with exactly two underlying
invocations, exactly one provisioning call, and the registry entry replaced
by the fresh sandbox bound to the repository URL recovered from the evicted
entry (the caller supplied none); (b) if both invocations raise
death-classified errors, the call raises the terminal
`Failed to run command: ...` error (`CommandExecutionFailed`) after exactly
two underlying invocations; (c) a non-death error is raised immediately:
one underlying invocation, no provisioning, state unchanged. -/
theorem runSandboxCommand_retry_once :
    (∀ (reg : List (String × SandboxInfo))
        (outs : List (String × List CommandOutput)) (env : EnvConfig)
        (now fid : Nat) (cl : List SandboxConfig) (rl : List RunCall)
        (resl : List (String × Option String)) (a : RunArgs)
        (old : SandboxInfo) (deadMsg so se : String) (ec : Int) (sid : String),
      a.repositoryUrl = none → lookupReg reg a.chatId = some old →
      old.repositoryUrl ≠ "" → isSandboxDeadError ⟨deadMsg⟩ = true →
      jsTruthy env.token = false →
      ∀ q, runSandboxCommand ⟨reg, outs⟩
          ⟨env, now, fid, [CreateOutcome.ok sid],
           [CommandOutcome.err deadMsg, CommandOutcome.ok so se ec],
           cl, rl, resl⟩ a = q →
        (q.1.isOk = true ∧
         (q.2.2).runLog.length = rl.length + 2 ∧
         (q.2.2).createLog.length = cl.length + 1 ∧
         lookupReg (q.2.1).registry a.chatId =
           some ⟨sid, old.repositoryUrl, now⟩)) ∧
    (∀ (reg : List (String × SandboxInfo))
        (outs : List (String × List CommandOutput)) (env : EnvConfig)
        (now fid : Nat) (cl : List SandboxConfig) (rl : List RunCall)
        (resl : List (String × Option String)) (a : RunArgs)
        (old : SandboxInfo) (m1 m2 : String) (sid : String),
      a.repositoryUrl = none → lookupReg reg a.chatId = some old →
      old.repositoryUrl ≠ "" → isSandboxDeadError ⟨m1⟩ = true →
      isSandboxDeadError ⟨m2⟩ = true → jsTruthy env.token = false →
      ∀ q, runSandboxCommand ⟨reg, outs⟩
          ⟨env, now, fid, [CreateOutcome.ok sid],
           [CommandOutcome.err m1, CommandOutcome.err m2], cl, rl, resl⟩ a = q →
        (q.1 = .error ⟨"Failed to run command: " ++ m2⟩ ∧
         (q.2.2).runLog.length = rl.length + 2)) ∧
    (∀ (reg : List (String × SandboxInfo))
        (outs : List (String × List CommandOutput)) (env : EnvConfig)
        (now fid : Nat) (cr : List CreateOutcome) (cl : List SandboxConfig)
        (rl : List RunCall) (resl : List (String × Option String))
        (a : RunArgs) (old : SandboxInfo) (m : String)
        (rest : List CommandOutcome),
      a.repositoryUrl = none → lookupReg reg a.chatId = some old →
      old.repositoryUrl ≠ "" → isSandboxDeadError ⟨m⟩ = false →
      ∀ q, runSandboxCommand ⟨reg, outs⟩
          ⟨env, now, fid, cr, CommandOutcome.err m :: rest, cl, rl, resl⟩ a = q →
        (q.1 = .error ⟨"Failed to run command: " ++ m⟩ ∧
         q.2.1 = ⟨reg, outs⟩ ∧
         (q.2.2).runLog.length = rl.length + 1 ∧
         (q.2.2).createLog = cl)) := by
  refine ⟨?_, ?_, ?_⟩
  · intro reg outs env now fid cl rl resl a old deadMsg so se ec sid
      hrepo hL hurl hdead htok q hq
    have hne : (old.repositoryUrl == "") = false := by simp [hurl]
    have hact1 : actualRepoUrl ⟨reg, outs⟩ a.chatId a.repositoryUrl
        = some old.repositoryUrl := by
      simp [actualRepoUrl, hrepo, jsTruthy, hL]
    rw [runSandboxCommand, retryOnce] at hq
    simp only [] at hq
    rw [attemptRun, hact1] at hq
    rw [getOrCreateSandbox_existing _ _ a.chatId (some old.repositoryUrl) old
      hL (Or.inr rfl)] at hq
    simp only [sandboxRunCommand, List.headD, List.tail_cons] at hq
    have hhd : handleDeadSandbox ⟨reg, outs⟩ a.chatId a.repositoryUrl =
        (some old.repositoryUrl, ⟨eraseKey reg a.chatId, outs⟩) := by
      simp [handleDeadSandbox, hL, hrepo, jsTruthy, hne]
    simp only [hdead, if_true, hhd] at hq
    have hact2 : actualRepoUrl ⟨eraseKey reg a.chatId, outs⟩ a.chatId
        (some old.repositoryUrl) = some old.repositoryUrl := by
      simp [actualRepoUrl, jsTruthy, hne]
    simp only [jsTruthy, hne, Bool.not_false, if_true] at hq
    rw [attemptRun, hact2] at hq
    simp only [getOrCreateSandbox, lookupReg_eraseKey_self, hne,
      Bool.false_eq_true, if_false, provisionNew, htok, doCreate,
      sandboxCreate, List.headD, List.tail_cons, sandboxRunCommand] at hq
    subst hq
    refine ⟨rfl, ?_, ?_, ?_⟩
    · simp
    · simp
    · exact lookupReg_setKey_self _ _ _
  · intro reg outs env now fid cl rl resl a old m1 m2 sid
      hrepo hL hurl hdead1 hdead2 htok q hq
    have hne : (old.repositoryUrl == "") = false := by simp [hurl]
    have hact1 : actualRepoUrl ⟨reg, outs⟩ a.chatId a.repositoryUrl
        = some old.repositoryUrl := by
      simp [actualRepoUrl, hrepo, jsTruthy, hL]
    rw [runSandboxCommand, retryOnce] at hq
    simp only [] at hq
    rw [attemptRun, hact1] at hq
    rw [getOrCreateSandbox_existing _ _ a.chatId (some old.repositoryUrl) old
      hL (Or.inr rfl)] at hq
    simp only [sandboxRunCommand, List.headD, List.tail_cons] at hq
    have hhd : handleDeadSandbox ⟨reg, outs⟩ a.chatId a.repositoryUrl =
        (some old.repositoryUrl, ⟨eraseKey reg a.chatId, outs⟩) := by
      simp [handleDeadSandbox, hL, hrepo, jsTruthy, hne]
    simp only [hdead1, if_true, hhd] at hq
    have hact2 : actualRepoUrl ⟨eraseKey reg a.chatId, outs⟩ a.chatId
        (some old.repositoryUrl) = some old.repositoryUrl := by
      simp [actualRepoUrl, jsTruthy, hne]
    simp only [jsTruthy, hne, Bool.not_false, if_true] at hq
    rw [attemptRun, hact2] at hq
    simp only [getOrCreateSandbox, lookupReg_eraseKey_self, hne,
      Bool.false_eq_true, if_false, provisionNew, htok, doCreate,
      sandboxCreate, List.headD, List.tail_cons, sandboxRunCommand] at hq
    subst hq
    exact ⟨rfl, by simp⟩
  · intro reg outs env now fid cr cl rl resl a old m rest
      hrepo hL hurl hnd q hq
    have hne : (old.repositoryUrl == "") = false := by simp [hurl]
    have hact1 : actualRepoUrl ⟨reg, outs⟩ a.chatId a.repositoryUrl
        = some old.repositoryUrl := by
      simp [actualRepoUrl, hrepo, jsTruthy, hL]
    rw [runSandboxCommand, retryOnce] at hq
    simp only [] at hq
    rw [attemptRun, hact1] at hq
    rw [getOrCreateSandbox_existing _ _ a.chatId (some old.repositoryUrl) old
      hL (Or.inr rfl)] at hq
    simp only [sandboxRunCommand, List.headD, List.tail_cons] at hq
    simp only [hnd, Bool.false_eq_true, if_false] at hq
    subst hq
    exact ⟨rfl, rfl, by simp, rfl⟩

/-- The `runSandboxCommand` argument object used by the C1 witness. -/
@[reducible]
def lsArgs : RunArgs :=
  { chatId := "chat-1", repositoryUrl := none, command := "ls", args := [],
    asSudo := false, workingDirectory := none, maxOutputLines := 20 }

/-- Scripts for the C1 witness: death then success. -/
@[reducible]
def deathRecoveryWorld : World :=
  { idleWorld with
      createResults := [CreateOutcome.ok "sb-2"],
      runResults :=
        [CommandOutcome.err "Status code 400", CommandOutcome.ok "ok" "" 0] }

/-- Scripts for the C1 witness: death twice. -/
@[reducible]
def doubleDeathWorld : World :=
  { idleWorld with
      createResults := [CreateOutcome.ok "sb-2"],
      runResults :=
        [CommandOutcome.err "Status code 400", CommandOutcome.err "400 again"] }

/-- Scripts for the C1 witness: a non-death failure. -/
@[reducible]
def nonDeathWorld : World :=
  { idleWorld with runResults := [CommandOutcome.err "boom"] }

/-- Witness for C1, exercising all three scenarios at concrete inputs. -/
theorem runSandboxCommand_retry_once_witness :
    ((runSandboxCommand oneSessionState deathRecoveryWorld lsArgs).1.isOk = true ∧
     ((runSandboxCommand oneSessionState deathRecoveryWorld lsArgs).2.2).runLog.length =
       List.length ([] : List RunCall) + 2 ∧
     ((runSandboxCommand oneSessionState deathRecoveryWorld lsArgs).2.2).createLog.length =
       List.length ([] : List SandboxConfig) + 1 ∧
     lookupReg ((runSandboxCommand oneSessionState deathRecoveryWorld lsArgs).2.1).registry
         lsArgs.chatId = some ⟨"sb-2", sb1.repositoryUrl, 0⟩) ∧
    ((runSandboxCommand oneSessionState doubleDeathWorld lsArgs).1 =
       .error ⟨"Failed to run command: " ++ "400 again"⟩ ∧
     ((runSandboxCommand oneSessionState doubleDeathWorld lsArgs).2.2).runLog.length =
       List.length ([] : List RunCall) + 2) ∧
    ((runSandboxCommand oneSessionState nonDeathWorld lsArgs).1 =
       .error ⟨"Failed to run command: " ++ "boom"⟩ ∧
     (runSandboxCommand oneSessionState nonDeathWorld lsArgs).2.1 =
       ⟨[("chat-1", sb1)], []⟩ ∧
     ((runSandboxCommand oneSessionState nonDeathWorld lsArgs).2.2).runLog.length =
       List.length ([] : List RunCall) + 1 ∧
     ((runSandboxCommand oneSessionState nonDeathWorld lsArgs).2.2).createLog = []) :=
  ⟨runSandboxCommand_retry_once.1 [("chat-1", sb1)] [] ⟨none, none, none⟩ 0 0
      [] [] [] lsArgs sb1 "Status code 400" "ok" "" 0 "sb-2" rfl (by decide)
      (by decide) (by decide) (by decide) _ rfl,
   runSandboxCommand_retry_once.2.1 [("chat-1", sb1)] [] ⟨none, none, none⟩ 0 0
      [] [] [] lsArgs sb1 "Status code 400" "400 again" "sb-2" rfl (by decide)
      (by decide) (by decide) (by decide) (by decide) _ rfl,
   runSandboxCommand_retry_once.2.2 [("chat-1", sb1)] [] ⟨none, none, none⟩ 0 0
      [] [] [] [] lsArgs sb1 "boom" [] rfl (by decide) (by decide) (by decide)
      _ rfl⟩

end SandboxAgent
